import Mathlib

/-!
Shallow embedding of the single-wire DHT sensor driver of this repository
(src/lab1/test_lcd/src/DHTLib_GPA788.cpp together with its header, kept in
src/unnamed/part_001).  C doubles are modelled as exact rationals, machine
bytes as natural numbers (with an explicit mod 256 where the C code
truncates), and the busy-polled single-wire line as an explicit environment
recording, for each bounded wait of the protocol, whether the awaited
transition occurred within the poll budget and the measured pulse width.
-/

/-- Error codes of the library (header, lines 34-35):
enum class DHTLIB_ErrorCode : int16_t with DHTLIB_OK = 0,
DHTLIB_ERROR_CHECKSUM = -1, DHTLIB_ERROR_TIMEOUT = -2,
DHTLIB_INVALID_VALUE = -999. -/
inductive DHTLIB_ErrorCode where
  | DHTLIB_OK
  | DHTLIB_ERROR_CHECKSUM
  | DHTLIB_ERROR_TIMEOUT
  | DHTLIB_INVALID_VALUE
deriving DecidableEq

/-- Numeric value of each error code (the int16_t representation chosen in
the header, lines 34-35). -/
def DHTLIB_ErrorCode.toInt16 : DHTLIB_ErrorCode → Int
  | .DHTLIB_OK => 0
  | .DHTLIB_ERROR_CHECKSUM => -1
  | .DHTLIB_ERROR_TIMEOUT => -2
  | .DHTLIB_INVALID_VALUE => -999

/-- 18 ms wake-up hold for the DHT11 variant (header, line 41). -/
def DHTLIB_DHT11_WAKEUP : Nat := 18

/-- 1 ms wake-up hold for the other sensor variants (header, line 42). -/
def DHTLIB_DHT_WAKEUP : Nat := 1

/-- Busy-poll iteration budget F_CPU / 40000 (header, line 49).  The
budget itself is abstracted by SensorEnv below, which records for each
bounded wait whether the transition arrived before the countdown hit 0. -/
def DHTLIB_TIMEOUT (F_CPU : Nat) : Nat := F_CPU / 40000

/-- The value static_cast to double from DHTLIB_INVALID_VALUE: the -999
sentinel stored in the reading fields (cpp, lines 47-48, 75-76, 168-169). -/
def invalidValue : Rat := (DHTLIB_ErrorCode.DHTLIB_INVALID_VALUE.toInt16 : Rat)

/-- Arduino word(h, l): the 16-bit value with high byte h and low byte l.
For byte-sized arguments, the only ones the driver passes, this equals the
bitwise (h shifted left by 8) or-ed with l of the Arduino implementation. -/
def word (h l : Nat) : Nat := 256 * h + l

/-- The driver object (header, lines 101-110): the five-byte raw frame
(modelled as a buffer indexed by all of Nat so that the in-bounds claims
are expressible), the two reading fields and the bound pin. -/
structure dhtlib_gpa788 where
  bits : Nat → Nat
  humidity : Rat
  temperature : Rat
  connected_pin : Nat

/-- Accessor getHumidity (header, line 87). -/
def dhtlib_gpa788.getHumidity (st : dhtlib_gpa788) : Rat := st.humidity

/-- Accessor getTemperature (header, line 88). -/
def dhtlib_gpa788.getTemperature (st : dhtlib_gpa788) : Rat := st.temperature

/-- Accessor getConnectedPin (header, line 89). -/
def dhtlib_gpa788.getConnectedPin (st : dhtlib_gpa788) : Nat := st.connected_pin

/-- Mutator setHumidity (header, line 94). -/
def dhtlib_gpa788.setHumidity (st : dhtlib_gpa788) (value : Rat) : dhtlib_gpa788 :=
  { st with humidity := value }

/-- Mutator setTemperature (header, line 95). -/
def dhtlib_gpa788.setTemperature (st : dhtlib_gpa788) (value : Rat) : dhtlib_gpa788 :=
  { st with temperature := value }

/-- Mutator setConnectedPin (header, line 96). -/
def dhtlib_gpa788.setConnectedPin (st : dhtlib_gpa788) (pin : Nat) : dhtlib_gpa788 :=
  { st with connected_pin := pin }

/-- reset (cpp, lines 73-77): both readings back to the sentinel. -/
def dhtlib_gpa788.reset (st : dhtlib_gpa788) : dhtlib_gpa788 :=
  (st.setHumidity invalidValue).setTemperature invalidValue

/-- Default constructor (header, lines 59-62): both readings start at the
sentinel; the frame buffer and the pin are uninitialized members, so they
are parameters here. -/
def dhtlib_gpa788.init (b : Nat → Nat) (pin : Nat) : dhtlib_gpa788 :=
  { bits := b, humidity := invalidValue, temperature := invalidValue,
    connected_pin := pin }

/-- Behaviour of the single-wire line during one _readSensor call.
ackLow / ackHigh tell whether the two acknowledge waits (cpp, lines
112-122) saw their transition before the countdown budget ran out; pulse k
describes the k-th iteration of the 40-bit loop (cpp, lines 125-151):
none when one of the two bounded waits of that iteration ran out of
budget, some t when both transitions arrived and the measured high pulse
(micros difference) was t microseconds. -/
structure SensorEnv where
  ackLow : Bool
  ackHigh : Bool
  pulse : Nat → Option Nat

/-- Result of one _readSensor call: the returned code, the updated driver
object, and the argument of the delay(wakeupDelay) call (cpp, line 106),
i.e. the hardware-observable duration in ms of the line-low wake-up hold. -/
structure SensorResult where
  code : DHTLIB_ErrorCode
  st : dhtlib_gpa788
  wakeupMs : Nat

/-- Result of one isConnected call (boolean-returning probe). -/
structure ConnectedResult where
  ok : Bool
  st : dhtlib_gpa788
  wakeupMs : Nat

/-- The write bits[idx] |= mask (cpp, line 143). -/
def writeBit (b : Nat → Nat) (idx mask : Nat) : Nat → Nat :=
  fun j => if j = idx then Nat.lor (b idx) mask else b j

/-- One conditional bit store (cpp, lines 141-144): write mask into byte
idx exactly when the measured pulse t exceeds 40 microseconds. -/
def condWrite (b : Nat → Nat) (idx mask t : Nat) : Nat → Nat :=
  cond (decide (40 < t)) (writeBit b idx mask) b

/-- The 40-iteration bit loop of _readSensor (cpp, lines 125-151).  The
first argument after env is the remaining iteration count (the C loop
counter i running from 40 down to 1), k numbers the iterations from 0 so
the environment can be indexed, mask and idx evolve as in the source
(mask shifted right each iteration; on underflow to 0 it is reset to 128
and idx advances), b is the frame buffer.  Returns false when a bounded
wait ran out of budget (early return DHTLIB_ERROR_TIMEOUT in the source),
paired with the buffer as written so far. -/
def bitLoop (env : SensorEnv) : Nat → Nat → Nat → Nat → (Nat → Nat) → Bool × (Nat → Nat)
  | 0, _, _, _, b => (true, b)
  | i + 1, k, mask, idx, b =>
    match env.pulse k with
    | none => (false, b)
    | some t =>
      let b2 := condWrite b idx mask t
      let mask2 := mask / 2
      if mask2 = 0 then bitLoop env i (k + 1) 128 (idx + 1) b2
      else bitLoop env i (k + 1) mask2 idx b2

/-- _readSensor (cpp, lines 87-156): clear the five frame bytes, issue the
wake-up (the line-low hold of wakeupDelay ms is recorded in wakeupMs),
wait for the two acknowledge transitions, then shift in 40 bits.  Every
early return leaves the buffer as written so far. -/
def dhtlib_gpa788._readSensor (env : SensorEnv) (wakeupDelay : Nat)
    (st : dhtlib_gpa788) : SensorResult :=
  if env.ackLow = false then
    { code := .DHTLIB_ERROR_TIMEOUT, st := { st with bits := fun _ => 0 },
      wakeupMs := wakeupDelay }
  else if env.ackHigh = false then
    { code := .DHTLIB_ERROR_TIMEOUT, st := { st with bits := fun _ => 0 },
      wakeupMs := wakeupDelay }
  else
    let r := bitLoop env 40 0 128 0 (fun _ => 0)
    if r.1 = true then
      { code := .DHTLIB_OK, st := { st with bits := r.2 }, wakeupMs := wakeupDelay }
    else
      { code := .DHTLIB_ERROR_TIMEOUT, st := { st with bits := r.2 },
        wakeupMs := wakeupDelay }

/-- read11 (cpp, lines 41-65): acquire with the 18 ms DHT11 wake-up; on
failure store the sentinel in both readings and propagate the code; on
success store bits 0 and 2 as the readings, then compare bits 4 with the
uint8 sum bits0 + bits2 + bits1 + bits3. -/
def dhtlib_gpa788.read11 (env : SensorEnv) (st : dhtlib_gpa788) : SensorResult :=
  let r := dhtlib_gpa788._readSensor env DHTLIB_DHT11_WAKEUP st
  if r.code ≠ DHTLIB_ErrorCode.DHTLIB_OK then
    { r with st := { r.st with humidity := invalidValue, temperature := invalidValue } }
  else
    let st2 := { r.st with humidity := (r.st.bits 0 : Rat),
                           temperature := (r.st.bits 2 : Rat) }
    let sum := (r.st.bits 0 + r.st.bits 2 + r.st.bits 1 + r.st.bits 3) % 256
    if r.st.bits 4 ≠ sum then { r with code := .DHTLIB_ERROR_CHECKSUM, st := st2 }
    else { r with code := .DHTLIB_OK, st := st2 }

/-- _read (cpp, lines 162-188): acquire (the source passes
DHTLIB_DHT11_WAKEUP here, line 165); on failure store the sentinel in both
readings and propagate; on success decode word(bits0, bits1) times 0.1 as
humidity and word(bits2 land 0x7F, bits3) times 0.1 as temperature,
negated when bits2 land 0x80 is nonzero, then compare bits 4 with the
uint8 sum bits0 + bits1 + bits2 + bits3. -/
def dhtlib_gpa788._read (env : SensorEnv) (st : dhtlib_gpa788) : SensorResult :=
  let r := dhtlib_gpa788._readSensor env DHTLIB_DHT11_WAKEUP st
  if r.code ≠ DHTLIB_ErrorCode.DHTLIB_OK then
    { r with st := { r.st with humidity := invalidValue, temperature := invalidValue } }
  else
    let hum : Rat := (word (r.st.bits 0) (r.st.bits 1) : Rat) * (1 / 10)
    let tmag : Rat := (word (Nat.land (r.st.bits 2) 0x7F) (r.st.bits 3) : Rat) * (1 / 10)
    let temp : Rat := if Nat.land (r.st.bits 2) 0x80 ≠ 0 then -tmag else tmag
    let st2 := { r.st with humidity := hum, temperature := temp }
    let sum := (r.st.bits 0 + r.st.bits 1 + r.st.bits 2 + r.st.bits 3) % 256
    if r.st.bits 4 ≠ sum then { r with code := .DHTLIB_ERROR_CHECKSUM, st := st2 }
    else { r with code := .DHTLIB_OK, st := st2 }

/-- read21 (header, line 79): alias of _read. -/
def dhtlib_gpa788.read21 : SensorEnv → dhtlib_gpa788 → SensorResult :=
  dhtlib_gpa788._read

/-- read22 (header, line 80): alias of _read. -/
def dhtlib_gpa788.read22 : SensorEnv → dhtlib_gpa788 → SensorResult :=
  dhtlib_gpa788._read

/-- read33 (header, line 81): alias of _read. -/
def dhtlib_gpa788.read33 : SensorEnv → dhtlib_gpa788 → SensorResult :=
  dhtlib_gpa788._read

/-- read44 (header, line 82): alias of _read. -/
def dhtlib_gpa788.read44 : SensorEnv → dhtlib_gpa788 → SensorResult :=
  dhtlib_gpa788._read

/-- isConnected (cpp, lines 68-71): one acquisition with the 1 ms
DHTLIB_DHT_WAKEUP, reporting only whether it returned DHTLIB_OK. -/
def dhtlib_gpa788.isConnected (env : SensorEnv) (st : dhtlib_gpa788) : ConnectedResult :=
  let r := dhtlib_gpa788._readSensor env DHTLIB_DHT_WAKEUP st
  { ok := decide (r.code = DHTLIB_ErrorCode.DHTLIB_OK), st := r.st,
    wakeupMs := r.wakeupMs }

/-- The environment of a fully successful line: both acknowledge waits
succeed and the k-th bit arrives with measured pulse d k. -/
def envAll (d : Nat → Nat) : SensorEnv :=
  { ackLow := true, ackHigh := true, pulse := fun k => some (d k) }

/-- The environment of a stuck line: the first acknowledge wait exhausts
its budget (and nothing arrives later either). -/
def envStuck : SensorEnv :=
  { ackLow := false, ackHigh := false, pulse := fun _ => none }

/-- The acquisition times out: one of the two acknowledge waits, or one of
the 40 bit iterations, exhausts its busy-poll budget. -/
def acqTimesOut (env : SensorEnv) : Prop :=
  env.ackLow = false ∨ env.ackHigh = false ∨ ∃ k, k < 40 ∧ env.pulse k = none

/-- The byte assembled MSB-first from eight threshold decisions: summand
2 ^ (7 - j) is present exactly when the j-th measured pulse exceeds 40
microseconds. -/
def byteVal (d0 d1 d2 d3 d4 d5 d6 d7 : Nat) : Nat :=
  cond (decide (40 < d0)) 128 0 + cond (decide (40 < d1)) 64 0 +
  cond (decide (40 < d2)) 32 0 + cond (decide (40 < d3)) 16 0 +
  cond (decide (40 < d4)) 8 0 + cond (decide (40 < d5)) 4 0 +
  cond (decide (40 < d6)) 2 0 + cond (decide (40 < d7)) 1 0

/-- The byte packed from the eight pulses starting at stream position k. -/
def byteFromPulses (d : Nat → Nat) (k : Nat) : Nat :=
  byteVal (d k) (d (k + 1)) (d (k + 2)) (d (k + 3)) (d (k + 4)) (d (k + 5))
    (d (k + 6)) (d (k + 7))

/-- The sequence of (mask, idx) pairs at which the 40-bit loop performs its
conditional write, following exactly the update of cpp lines 145-150: the
mask is halved each iteration and, on underflow to 0, reset to 128 with
idx advanced. -/
def bitLoopTrace : Nat → Nat → Nat → List (Nat × Nat)
  | 0, _, _ => []
  | i + 1, mask, idx =>
    (mask, idx) ::
      (if mask / 2 = 0 then bitLoopTrace i 128 (idx + 1)
       else bitLoopTrace i (mask / 2) idx)

/-- A driver object with fresh sentinel readings on pin 7, as built by
setup() in the sketch (src/unnamed/part_000, lines 57-58 and 84). -/
def stW : dhtlib_gpa788 := dhtlib_gpa788.init (fun _ => 0) 7

/-- A driver object holding an earlier successful reading. -/
def stW50 : dhtlib_gpa788 :=
  { bits := fun _ => 0, humidity := 50, temperature := 20, connected_pin := 7 }

/-- Pulse widths spelling the frame 45, 0, 23, 0, 68 (valid checksum). -/
def dFrame45 : Nat → Nat :=
  fun k => if k ∈ ([2, 4, 5, 7, 19, 21, 22, 23, 33, 37] : List Nat) then 50 else 10

/-- Pulse widths spelling the frame 45, 0, 23, 0, 67 (corrupted checksum:
45 + 0 + 23 + 0 = 68 while the trailing byte reads 67). -/
def dFrame45bad : Nat → Nat :=
  fun k => if k ∈ ([2, 4, 5, 7, 19, 21, 22, 23, 33, 38, 39] : List Nat) then 50 else 10

/-- Pulse widths spelling the frame 0, 0, 0x80, 0x05, 0: temperature sign
bit set, magnitude 0.5. -/
def dFrameNeg : Nat → Nat :=
  fun k => if k ∈ ([16, 29, 31] : List Nat) then 50 else 10

/-- Alternating pulse widths: even stream positions above the 40
microsecond threshold, odd ones below. -/
def dAlt : Nat → Nat := fun k => if k % 2 = 0 then 50 else 10

theorem invalidValue_eq : invalidValue = -999 := by
  norm_num [invalidValue, DHTLIB_ErrorCode.toInt16]
lemma bitLoop_fst_true (env : SensorEnv) :
    ∀ (fuel k mask idx : Nat) (b : Nat → Nat),
      (∀ t, t < fuel → (env.pulse (k + t)).isSome = true) →
      (bitLoop env fuel k mask idx b).1 = true := by
  intro fuel
  induction fuel with
  | zero => intro k mask idx b _; rfl
  | succ i ih =>
    intro k mask idx b h
    have h0 : (env.pulse (k + 0)).isSome = true := h 0 (by omega)
    rcases hp : env.pulse k with _ | t
    · rw [Nat.add_zero, hp] at h0; simp at h0
    · have hrec : ∀ m j, (bitLoop env i (k + 1) m j (condWrite b idx mask t)).1 = true := by
        intro m j
        apply ih
        intro s hs
        have := h (s + 1) (by omega)
        have hkk : k + (s + 1) = k + 1 + s := by omega
        rwa [hkk] at this
      simp only [bitLoop, hp]
      split
      · exact hrec _ _
      · exact hrec _ _

lemma bitLoop_fst_false (env : SensorEnv) :
    ∀ (fuel k mask idx : Nat) (b : Nat → Nat),
      (∃ t, t < fuel ∧ env.pulse (k + t) = none) →
      (bitLoop env fuel k mask idx b).1 = false := by
  intro fuel
  induction fuel with
  | zero => intro k mask idx b h; obtain ⟨t, ht, _⟩ := h; omega
  | succ i ih =>
    intro k mask idx b h
    obtain ⟨t, ht, hnone⟩ := h
    rcases hp : env.pulse k with _ | u
    · simp [bitLoop, hp]
    · have ht0 : t ≠ 0 := by
        intro h0; rw [h0, Nat.add_zero, hp] at hnone; exact Option.noConfusion hnone
      have hrec : ∀ m j, (bitLoop env i (k + 1) m j (condWrite b idx mask u)).1 = false := by
        intro m j
        apply ih
        refine ⟨t - 1, by omega, ?_⟩
        have hkk : k + 1 + (t - 1) = k + t := by omega
        rwa [hkk]
      simp only [bitLoop, hp]
      split
      · exact hrec _ _
      · exact hrec _ _

lemma condWrite_other {b : Nat → Nat} {idx mask t j : Nat} (hj : j ≠ idx) :
    condWrite b idx mask t j = b j := by
  unfold condWrite writeBit
  cases decide (40 < t) <;> simp [hj]

lemma bitLoop_bits_high (env : SensorEnv) :
    ∀ (fuel k m idx : Nat) (b : Nat → Nat) (j : Nat),
      m ≤ 7 → 8 * idx + (7 - m) + fuel ≤ 8 * j →
      (bitLoop env fuel k (2 ^ m) idx b).2 j = b j := by
  intro fuel
  induction fuel with
  | zero => intro k m idx b j _ _; rfl
  | succ i ih =>
    intro k m idx b j hm hbound
    have hij : j ≠ idx := by omega
    rcases hp : env.pulse k with _ | t
    · simp [bitLoop, hp]
    · have hcw : condWrite b idx (2 ^ m) t j = b j := condWrite_other hij
      rcases m with _ | m'
      · have h1 : (2 : Nat) ^ 0 / 2 = 0 := by norm_num
        simp only [bitLoop, hp, pow_zero] at *
        rw [if_pos (by norm_num)]
        rw [show (128 : Nat) = 2 ^ 7 by norm_num] at *
        rw [ih (k + 1) 7 (idx + 1) _ j (by omega) (by omega)]
        exact hcw
      · have h2 : (2 : Nat) ^ (m' + 1) / 2 = 2 ^ m' := by
          rw [pow_succ]; exact Nat.mul_div_cancel _ (by norm_num)
        have hne : (2 : Nat) ^ m' ≠ 0 := by positivity
        simp only [bitLoop, hp, h2]
        rw [if_neg hne]
        rw [ih (k + 1) m' idx _ j (by omega) (by omega)]
        exact hcw

lemma condWrite_self (b : Nat → Nat) (idx mask t : Nat) :
    condWrite b idx mask t idx
      = cond (decide (40 < t)) (Nat.lor (b idx) mask) (b idx) := by
  unfold condWrite writeBit
  cases decide (40 < t) <;> simp

lemma bitLoop_step_ne (env : SensorEnv) (d : Nat) (i k mask idx : Nat) (b : Nat → Nat)
    (hp : env.pulse k = some d) (hm : ¬ mask / 2 = 0) :
    bitLoop env (i + 1) k mask idx b
      = bitLoop env i (k + 1) (mask / 2) idx (condWrite b idx mask d) := by
  simp only [bitLoop, hp]
  rw [if_neg hm]

lemma bitLoop_step_eq (env : SensorEnv) (d : Nat) (i k mask idx : Nat) (b : Nat → Nat)
    (hp : env.pulse k = some d) (hm : mask / 2 = 0) :
    bitLoop env (i + 1) k mask idx b
      = bitLoop env i (k + 1) 128 (idx + 1) (condWrite b idx mask d) := by
  simp only [bitLoop, hp]
  rw [if_pos hm]

lemma bitLoop_byte (env : SensorEnv) (d : Nat → Nat)
    (hp : ∀ t, env.pulse t = some (d t)) (n k idx : Nat) (b : Nat → Nat)
    (hb : b idx = 0) :
    bitLoop env (n + 8) k 128 idx b
      = bitLoop env n (k + 8) 128 (idx + 1)
          (fun j => if j = idx then byteFromPulses d k else b j) := by
  rw [show n + 8 = n + 7 + 1 from rfl,
      bitLoop_step_ne env (d k) (n + 7) k 128 idx b (hp k) (by norm_num)]
  rw [show (128 : Nat) / 2 = 64 from rfl,
      show n + 7 = n + 6 + 1 from rfl,
      bitLoop_step_ne env (d (k + 1)) (n + 6) (k + 1) 64 idx _ (hp (k + 1)) (by norm_num)]
  rw [show (64 : Nat) / 2 = 32 from rfl,
      show n + 6 = n + 5 + 1 from rfl,
      bitLoop_step_ne env (d (k + 1 + 1)) (n + 5) (k + 1 + 1) 32 idx _ (hp (k + 1 + 1)) (by norm_num)]
  rw [show (32 : Nat) / 2 = 16 from rfl,
      show n + 5 = n + 4 + 1 from rfl,
      bitLoop_step_ne env (d (k + 1 + 1 + 1)) (n + 4) (k + 1 + 1 + 1) 16 idx _ (hp _) (by norm_num)]
  rw [show (16 : Nat) / 2 = 8 from rfl,
      show n + 4 = n + 3 + 1 from rfl,
      bitLoop_step_ne env (d (k + 1 + 1 + 1 + 1)) (n + 3) (k + 1 + 1 + 1 + 1) 8 idx _ (hp _) (by norm_num)]
  rw [show (8 : Nat) / 2 = 4 from rfl,
      show n + 3 = n + 2 + 1 from rfl,
      bitLoop_step_ne env (d (k + 1 + 1 + 1 + 1 + 1)) (n + 2) (k + 1 + 1 + 1 + 1 + 1) 4 idx _ (hp _) (by norm_num)]
  rw [show (4 : Nat) / 2 = 2 from rfl,
      show n + 2 = n + 1 + 1 from rfl,
      bitLoop_step_ne env (d (k + 1 + 1 + 1 + 1 + 1 + 1)) (n + 1) (k + 1 + 1 + 1 + 1 + 1 + 1) 2 idx _ (hp _) (by norm_num)]
  rw [show (2 : Nat) / 2 = 1 from rfl,
      bitLoop_step_eq env (d (k + 1 + 1 + 1 + 1 + 1 + 1 + 1)) n (k + 1 + 1 + 1 + 1 + 1 + 1 + 1) 1 idx _ (hp _) (by norm_num)]
  have hk8 : k + 1 + 1 + 1 + 1 + 1 + 1 + 1 + 1 = k + 8 := by omega
  rw [hk8]
  congr 1
  funext j
  by_cases hj : j = idx
  · subst hj
    simp only [show k + 1 + 1 = k + 2 from rfl, show k + 2 + 1 = k + 3 from rfl,
      show k + 3 + 1 = k + 4 from rfl, show k + 4 + 1 = k + 5 from rfl,
      show k + 5 + 1 = k + 6 from rfl, show k + 6 + 1 = k + 7 from rfl]
    simp only [condWrite_self, hb, if_pos rfl, byteFromPulses, byteVal]
    generalize decide (40 < d k) = c0
    generalize decide (40 < d (k + 1)) = c1
    generalize decide (40 < d (k + 2)) = c2
    generalize decide (40 < d (k + 3)) = c3
    generalize decide (40 < d (k + 4)) = c4
    generalize decide (40 < d (k + 5)) = c5
    generalize decide (40 < d (k + 6)) = c6
    generalize decide (40 < d (k + 7)) = c7
    revert c0 c1 c2 c3 c4 c5 c6 c7
    decide
  · simp only [condWrite_other hj, if_neg hj]

lemma bitLoop_full (env : SensorEnv) (d : Nat → Nat)
    (hp : ∀ t, env.pulse t = some (d t)) :
    (bitLoop env 40 0 128 0 (fun _ => 0)).2
      = fun j =>
          if j = 4 then byteFromPulses d 32
          else if j = 3 then byteFromPulses d 24
          else if j = 2 then byteFromPulses d 16
          else if j = 1 then byteFromPulses d 8
          else if j = 0 then byteFromPulses d 0
          else 0 := by
  rw [show (40 : Nat) = 32 + 8 from rfl, bitLoop_byte env d hp 32 0 0 _ rfl]
  simp only [show (0 : Nat) + 8 = 8 from rfl, show (0 : Nat) + 1 = 1 from rfl]
  rw [show (32 : Nat) = 24 + 8 from rfl, bitLoop_byte env d hp 24 8 1 _ (by norm_num)]
  simp only [show (8 : Nat) + 8 = 16 from rfl, show (1 : Nat) + 1 = 2 from rfl]
  rw [show (24 : Nat) = 16 + 8 from rfl, bitLoop_byte env d hp 16 16 2 _ (by norm_num)]
  simp only [show (16 : Nat) + 8 = 24 from rfl, show (2 : Nat) + 1 = 3 from rfl]
  rw [show (16 : Nat) = 8 + 8 from rfl, bitLoop_byte env d hp 8 24 3 _ (by norm_num)]
  simp only [show (24 : Nat) + 8 = 32 from rfl, show (3 : Nat) + 1 = 4 from rfl]
  rw [show (8 : Nat) = 0 + 8 from rfl, bitLoop_byte env d hp 0 32 4 _ (by norm_num)]
  funext j
  simp only [bitLoop]

lemma byteVal_testBit (d0 d1 d2 d3 d4 d5 d6 d7 : Nat) :
    Nat.testBit (byteVal d0 d1 d2 d3 d4 d5 d6 d7) 7 = decide (40 < d0) ∧
    Nat.testBit (byteVal d0 d1 d2 d3 d4 d5 d6 d7) 6 = decide (40 < d1) ∧
    Nat.testBit (byteVal d0 d1 d2 d3 d4 d5 d6 d7) 5 = decide (40 < d2) ∧
    Nat.testBit (byteVal d0 d1 d2 d3 d4 d5 d6 d7) 4 = decide (40 < d3) ∧
    Nat.testBit (byteVal d0 d1 d2 d3 d4 d5 d6 d7) 3 = decide (40 < d4) ∧
    Nat.testBit (byteVal d0 d1 d2 d3 d4 d5 d6 d7) 2 = decide (40 < d5) ∧
    Nat.testBit (byteVal d0 d1 d2 d3 d4 d5 d6 d7) 1 = decide (40 < d6) ∧
    Nat.testBit (byteVal d0 d1 d2 d3 d4 d5 d6 d7) 0 = decide (40 < d7) := by
  unfold byteVal
  generalize decide (40 < d0) = c0
  generalize decide (40 < d1) = c1
  generalize decide (40 < d2) = c2
  generalize decide (40 < d3) = c3
  generalize decide (40 < d4) = c4
  generalize decide (40 < d5) = c5
  generalize decide (40 < d6) = c6
  generalize decide (40 < d7) = c7
  revert c0 c1 c2 c3 c4 c5 c6 c7
  decide


lemma readSensor_wakeupMs (env : SensorEnv) (w : Nat) (st : dhtlib_gpa788) :
    (dhtlib_gpa788._readSensor env w st).wakeupMs = w := by
  unfold dhtlib_gpa788._readSensor
  rcases env.ackLow with _ | _ <;> rcases env.ackHigh with _ | _ <;>
    simp <;> split <;> rfl

lemma readSensor_humidity (env : SensorEnv) (w : Nat) (st : dhtlib_gpa788) :
    (dhtlib_gpa788._readSensor env w st).st.humidity = st.humidity := by
  unfold dhtlib_gpa788._readSensor
  rcases env.ackLow with _ | _ <;> rcases env.ackHigh with _ | _ <;>
    simp <;> split <;> rfl

lemma readSensor_temperature (env : SensorEnv) (w : Nat) (st : dhtlib_gpa788) :
    (dhtlib_gpa788._readSensor env w st).st.temperature = st.temperature := by
  unfold dhtlib_gpa788._readSensor
  rcases env.ackLow with _ | _ <;> rcases env.ackHigh with _ | _ <;>
    simp <;> split <;> rfl

lemma readSensor_pin (env : SensorEnv) (w : Nat) (st : dhtlib_gpa788) :
    (dhtlib_gpa788._readSensor env w st).st.connected_pin = st.connected_pin := by
  unfold dhtlib_gpa788._readSensor
  rcases env.ackLow with _ | _ <;> rcases env.ackHigh with _ | _ <;>
    simp <;> split <;> rfl

lemma readSensor_code_cases (env : SensorEnv) (w : Nat) (st : dhtlib_gpa788) :
    (dhtlib_gpa788._readSensor env w st).code = DHTLIB_ErrorCode.DHTLIB_OK ∨
    (dhtlib_gpa788._readSensor env w st).code = DHTLIB_ErrorCode.DHTLIB_ERROR_TIMEOUT := by
  unfold dhtlib_gpa788._readSensor
  rcases env.ackLow with _ | _ <;> rcases env.ackHigh with _ | _ <;> simp <;> split
  all_goals simp

lemma readSensor_code_ok_iff (env : SensorEnv) (w : Nat) (st : dhtlib_gpa788) :
    (dhtlib_gpa788._readSensor env w st).code = DHTLIB_ErrorCode.DHTLIB_OK
      ↔ ¬ acqTimesOut env := by
  unfold dhtlib_gpa788._readSensor acqTimesOut
  rcases hL : env.ackLow with _ | _
  · simp [hL]
  · rcases hH : env.ackHigh with _ | _
    · simp [hH]
    · simp only [hL, hH]
      norm_num
      rcases hr : (bitLoop env 40 0 128 0 fun _ => 0).1 with _ | _
      · constructor
        · intro h
          exact absurd h (by simp)
        · intro hcon
          have hall : ∀ t, t < 40 → (env.pulse (0 + t)).isSome = true := by
            intro t ht
            rcases hpt : env.pulse (0 + t) with _ | u
            · exact absurd (by simpa using hpt) (hcon t ht)
            · rfl
          have h2 := bitLoop_fst_true env 40 0 128 0 (fun _ => 0) hall
          rw [hr] at h2
          exact Bool.noConfusion h2
      · norm_num
        intro k hk hnone
        have h2 := bitLoop_fst_false env 40 0 128 0 (fun _ => 0)
          ⟨k, hk, by simpa using hnone⟩
        rw [hr] at h2
        exact Bool.noConfusion h2

lemma nonneg_ne_neg999 {x : Rat} (hx : 0 ≤ x) : x ≠ -999 := by
  intro h
  rw [h] at hx
  norm_num at hx

lemma read11_bits (env : SensorEnv) (st : dhtlib_gpa788) :
    (dhtlib_gpa788.read11 env st).st.bits
      = (dhtlib_gpa788._readSensor env DHTLIB_DHT11_WAKEUP st).st.bits := by
  simp only [dhtlib_gpa788.read11]
  split
  · rfl
  · split <;> rfl

lemma read_bits (env : SensorEnv) (st : dhtlib_gpa788) :
    (dhtlib_gpa788._read env st).st.bits
      = (dhtlib_gpa788._readSensor env DHTLIB_DHT11_WAKEUP st).st.bits := by
  simp only [dhtlib_gpa788._read]
  split
  · rfl
  · split <;> rfl

lemma readSensor_bits_indep (env : SensorEnv) (w : Nat) (st1 st2 : dhtlib_gpa788) :
    (dhtlib_gpa788._readSensor env w st1).st.bits
      = (dhtlib_gpa788._readSensor env w st2).st.bits := by
  unfold dhtlib_gpa788._readSensor
  rcases env.ackLow with _ | _ <;> rcases env.ackHigh with _ | _ <;> simp <;>
    split <;> rfl

lemma read11_wakeupMs (env : SensorEnv) (st : dhtlib_gpa788) :
    (dhtlib_gpa788.read11 env st).wakeupMs = DHTLIB_DHT11_WAKEUP := by
  simp only [dhtlib_gpa788.read11]
  split
  · exact readSensor_wakeupMs env DHTLIB_DHT11_WAKEUP st
  · split <;> exact readSensor_wakeupMs env DHTLIB_DHT11_WAKEUP st

lemma read_wakeupMs (env : SensorEnv) (st : dhtlib_gpa788) :
    (dhtlib_gpa788._read env st).wakeupMs = DHTLIB_DHT11_WAKEUP := by
  simp only [dhtlib_gpa788._read]
  split
  · exact readSensor_wakeupMs env DHTLIB_DHT11_WAKEUP st
  · split <;> exact readSensor_wakeupMs env DHTLIB_DHT11_WAKEUP st

/-- Claim C2: the claim states that _read (behind read21, read22, read33 and
read44) acquires with the 1 ms generic DHTLIB_DHT_WAKEUP, unlike the 18 ms
DHTLIB_DHT11_WAKEUP of read11.  The source contradicts this (cpp, line
165): _read passes DHTLIB_DHT11_WAKEUP to _readSensor, so the line-low
wake-up hold of every scaled read lasts 18 ms, not 1 ms.  This theorem
evaluates that behaviour; since the header itself documents
DHTLIB_DHT_WAKEUP as the wake-up for the non-DHT11 sensors and _read as
the driver for those sensors, the code, not the claim, is wrong. -/
theorem spec_C2_read_wakeup (env : SensorEnv) (st : dhtlib_gpa788) :
    (dhtlib_gpa788._read env st).wakeupMs = DHTLIB_DHT11_WAKEUP ∧
    (dhtlib_gpa788._read env st).wakeupMs = 18 ∧
    DHTLIB_DHT_WAKEUP = 1 ∧
    dhtlib_gpa788.read21 env st = dhtlib_gpa788._read env st ∧
    dhtlib_gpa788.read22 env st = dhtlib_gpa788._read env st ∧
    dhtlib_gpa788.read33 env st = dhtlib_gpa788._read env st ∧
    dhtlib_gpa788.read44 env st = dhtlib_gpa788._read env st :=
  ⟨read_wakeupMs env st, read_wakeupMs env st, rfl, rfl, rfl, rfl, rfl⟩

/-- Claim C3: whenever the acquisition phase times out (an acknowledge wait
or a bit wait misses its busy-poll budget), both read11 and _read return
DHTLIB_ERROR_TIMEOUT and store the -999 sentinel in both readings,
whatever the prior state was. -/
theorem spec_C3_timeout_sets_sentinel (env : SensorEnv) (st : dhtlib_gpa788)
    (h : acqTimesOut env) :
    (dhtlib_gpa788.read11 env st).code = DHTLIB_ErrorCode.DHTLIB_ERROR_TIMEOUT ∧
    (dhtlib_gpa788.read11 env st).st.humidity = -999 ∧
    (dhtlib_gpa788.read11 env st).st.temperature = -999 ∧
    (dhtlib_gpa788._read env st).code = DHTLIB_ErrorCode.DHTLIB_ERROR_TIMEOUT ∧
    (dhtlib_gpa788._read env st).st.humidity = -999 ∧
    (dhtlib_gpa788._read env st).st.temperature = -999 := by
  have hne : (dhtlib_gpa788._readSensor env DHTLIB_DHT11_WAKEUP st).code
      ≠ DHTLIB_ErrorCode.DHTLIB_OK := by
    intro hc
    exact (readSensor_code_ok_iff env DHTLIB_DHT11_WAKEUP st).mp hc h
  have hto : (dhtlib_gpa788._readSensor env DHTLIB_DHT11_WAKEUP st).code
      = DHTLIB_ErrorCode.DHTLIB_ERROR_TIMEOUT :=
    (readSensor_code_cases env DHTLIB_DHT11_WAKEUP st).resolve_left hne
  simp only [dhtlib_gpa788.read11, dhtlib_gpa788._read]
  rw [if_pos hne, if_pos hne]
  exact ⟨hto, invalidValue_eq, invalidValue_eq, hto, invalidValue_eq, invalidValue_eq⟩

/-- Witness for C3 at the stuck-line environment. -/
theorem spec_C3_witness :
    acqTimesOut envStuck ∧
    ((dhtlib_gpa788.read11 envStuck stW50).code
        = DHTLIB_ErrorCode.DHTLIB_ERROR_TIMEOUT ∧
      (dhtlib_gpa788.read11 envStuck stW50).st.humidity = -999 ∧
      (dhtlib_gpa788.read11 envStuck stW50).st.temperature = -999 ∧
      (dhtlib_gpa788._read envStuck stW50).code
        = DHTLIB_ErrorCode.DHTLIB_ERROR_TIMEOUT ∧
      (dhtlib_gpa788._read envStuck stW50).st.humidity = -999 ∧
      (dhtlib_gpa788._read envStuck stW50).st.temperature = -999) :=
  ⟨Or.inl rfl, spec_C3_timeout_sets_sentinel envStuck stW50 (Or.inl rfl)⟩

/-- Claim C9: isConnected never touches the reading fields, acquires with
the minimal 1 ms DHTLIB_DHT_WAKEUP, and reports true exactly when the
acquisition protocol runs to completion without a busy-poll timeout. -/
theorem spec_C9_isConnected (env : SensorEnv) (st : dhtlib_gpa788) :
    (dhtlib_gpa788.isConnected env st).st.humidity = st.humidity ∧
    (dhtlib_gpa788.isConnected env st).st.temperature = st.temperature ∧
    ((dhtlib_gpa788.isConnected env st).ok = true ↔ ¬ acqTimesOut env) ∧
    (dhtlib_gpa788.isConnected env st).wakeupMs = DHTLIB_DHT_WAKEUP ∧
    DHTLIB_DHT_WAKEUP = 1 := by
  refine ⟨?_, ?_, ?_, ?_, rfl⟩
  · exact readSensor_humidity env DHTLIB_DHT_WAKEUP st
  · exact readSensor_temperature env DHTLIB_DHT_WAKEUP st
  · unfold dhtlib_gpa788.isConnected
    simp only [decide_eq_true_iff]
    exact readSensor_code_ok_iff env DHTLIB_DHT_WAKEUP st
  · unfold dhtlib_gpa788.isConnected
    simp only []
    exact readSensor_wakeupMs env DHTLIB_DHT_WAKEUP st

/-- Claim C8: the frame bytes produced by any read attempt (read11, _read,
isConnected, all through _readSensor) are independent of whatever the
buffer held before the attempt, because the buffer is cleared before any
acquisition step; when the very first acknowledge wait already times out
the frame is left all zeros. -/
theorem spec_C8_frame_cleared (env : SensorEnv) (w : Nat)
    (st1 st2 : dhtlib_gpa788) (j : Nat) (ackH : Bool) (p : Nat → Option Nat) :
    (dhtlib_gpa788.read11 env st1).st.bits j
      = (dhtlib_gpa788.read11 env st2).st.bits j ∧
    (dhtlib_gpa788._read env st1).st.bits j
      = (dhtlib_gpa788._read env st2).st.bits j ∧
    (dhtlib_gpa788.isConnected env st1).st.bits j
      = (dhtlib_gpa788.isConnected env st2).st.bits j ∧
    (dhtlib_gpa788._readSensor { ackLow := false, ackHigh := ackH, pulse := p }
        w st1).st.bits j = 0 := by
  refine ⟨?_, ?_, ?_, rfl⟩
  · rw [read11_bits, read11_bits, readSensor_bits_indep env DHTLIB_DHT11_WAKEUP st1 st2]
  · rw [read_bits, read_bits, readSensor_bits_indep env DHTLIB_DHT11_WAKEUP st1 st2]
  · unfold dhtlib_gpa788.isConnected
    simp only []
    rw [readSensor_bits_indep env DHTLIB_DHT_WAKEUP st1 st2]

/-- Counterexample to C4 as stated: setHumidity and reset are public
operations outside the read family, yet they write the humidity field (and
reset also the temperature field). -/
theorem spec_C4_counterexample :
    (stW50.setHumidity 77).humidity ≠ stW50.humidity ∧
    stW50.reset.humidity ≠ stW50.humidity ∧
    stW50.reset.humidity = -999 ∧
    stW50.reset.temperature = -999 := by
  refine ⟨?_, ?_, invalidValue_eq, invalidValue_eq⟩ <;> norm_num [stW50,
    dhtlib_gpa788.setHumidity, dhtlib_gpa788.reset, dhtlib_gpa788.setTemperature,
    invalidValue_eq]

/-- Claim C4 (amended): the reading fields are written by the read family
and, in addition, by the public mutators setHumidity and setTemperature
and by reset (which drives both fields to the sentinel); the accessors,
setConnectedPin, isConnected and the raw acquisition step itself never
write them. -/
theorem spec_C4_field_writers (env : SensorEnv) (w : Nat) (st : dhtlib_gpa788)
    (p : Nat) (v : Rat) :
    (st.setConnectedPin p).humidity = st.humidity ∧
    (st.setConnectedPin p).temperature = st.temperature ∧
    (dhtlib_gpa788.isConnected env st).st.humidity = st.humidity ∧
    (dhtlib_gpa788.isConnected env st).st.temperature = st.temperature ∧
    (dhtlib_gpa788._readSensor env w st).st.humidity = st.humidity ∧
    (dhtlib_gpa788._readSensor env w st).st.temperature = st.temperature ∧
    st.getHumidity = st.humidity ∧
    st.getTemperature = st.temperature ∧
    (st.setHumidity v).humidity = v ∧
    (st.setHumidity v).temperature = st.temperature ∧
    (st.setTemperature v).temperature = v ∧
    (st.setTemperature v).humidity = st.humidity ∧
    st.reset.humidity = -999 ∧
    st.reset.temperature = -999 := by
  refine ⟨rfl, rfl, ?_, ?_, readSensor_humidity env w st,
    readSensor_temperature env w st, rfl, rfl, rfl, rfl, rfl, rfl,
    invalidValue_eq, invalidValue_eq⟩
  · exact readSensor_humidity env DHTLIB_DHT_WAKEUP st
  · exact readSensor_temperature env DHTLIB_DHT_WAKEUP st

/-- Claim C1: when acquisition succeeds but the fifth byte disagrees with
the mod-256 sum of the first four, both read11 and _read return
DHTLIB_ERROR_CHECKSUM while the reading fields keep the raw values just
decoded from that (invalid) frame instead of being reset to the -999
sentinel. -/
theorem spec_C1_checksum_keeps_decoded (env : SensorEnv) (st : dhtlib_gpa788)
    (hOK : (dhtlib_gpa788._readSensor env DHTLIB_DHT11_WAKEUP st).code
      = DHTLIB_ErrorCode.DHTLIB_OK)
    (hbad : (dhtlib_gpa788._readSensor env DHTLIB_DHT11_WAKEUP st).st.bits 4
      ≠ ((dhtlib_gpa788._readSensor env DHTLIB_DHT11_WAKEUP st).st.bits 0
          + (dhtlib_gpa788._readSensor env DHTLIB_DHT11_WAKEUP st).st.bits 1
          + (dhtlib_gpa788._readSensor env DHTLIB_DHT11_WAKEUP st).st.bits 2
          + (dhtlib_gpa788._readSensor env DHTLIB_DHT11_WAKEUP st).st.bits 3) % 256) :
    (dhtlib_gpa788.read11 env st).code = DHTLIB_ErrorCode.DHTLIB_ERROR_CHECKSUM ∧
    (dhtlib_gpa788.read11 env st).st.humidity
      = ((dhtlib_gpa788._readSensor env DHTLIB_DHT11_WAKEUP st).st.bits 0 : Rat) ∧
    (dhtlib_gpa788.read11 env st).st.temperature
      = ((dhtlib_gpa788._readSensor env DHTLIB_DHT11_WAKEUP st).st.bits 2 : Rat) ∧
    (dhtlib_gpa788.read11 env st).st.humidity ≠ -999 ∧
    (dhtlib_gpa788.read11 env st).st.temperature ≠ -999 ∧
    (dhtlib_gpa788._read env st).code = DHTLIB_ErrorCode.DHTLIB_ERROR_CHECKSUM ∧
    (dhtlib_gpa788._read env st).st.humidity
      = ((word ((dhtlib_gpa788._readSensor env DHTLIB_DHT11_WAKEUP st).st.bits 0)
            ((dhtlib_gpa788._readSensor env DHTLIB_DHT11_WAKEUP st).st.bits 1) : Nat) : Rat)
          * (1 / 10) ∧
    (dhtlib_gpa788._read env st).st.temperature
      = (if Nat.land ((dhtlib_gpa788._readSensor env DHTLIB_DHT11_WAKEUP st).st.bits 2)
            0x80 ≠ 0
         then -(((word (Nat.land ((dhtlib_gpa788._readSensor env DHTLIB_DHT11_WAKEUP
                  st).st.bits 2) 0x7F)
                ((dhtlib_gpa788._readSensor env DHTLIB_DHT11_WAKEUP st).st.bits 3) : Nat)
                : Rat) * (1 / 10))
         else ((word (Nat.land ((dhtlib_gpa788._readSensor env DHTLIB_DHT11_WAKEUP
                  st).st.bits 2) 0x7F)
              ((dhtlib_gpa788._readSensor env DHTLIB_DHT11_WAKEUP st).st.bits 3) : Nat)
              : Rat) * (1 / 10)) ∧
    (dhtlib_gpa788._read env st).st.humidity ≠ -999 := by
  have hne : ¬ ((dhtlib_gpa788._readSensor env DHTLIB_DHT11_WAKEUP st).code
      ≠ DHTLIB_ErrorCode.DHTLIB_OK) := not_not_intro hOK
  have hbad2 : (dhtlib_gpa788._readSensor env DHTLIB_DHT11_WAKEUP st).st.bits 4
      ≠ ((dhtlib_gpa788._readSensor env DHTLIB_DHT11_WAKEUP st).st.bits 0
          + (dhtlib_gpa788._readSensor env DHTLIB_DHT11_WAKEUP st).st.bits 2
          + (dhtlib_gpa788._readSensor env DHTLIB_DHT11_WAKEUP st).st.bits 1
          + (dhtlib_gpa788._readSensor env DHTLIB_DHT11_WAKEUP st).st.bits 3) % 256 := by
    intro hcon
    apply hbad
    rw [hcon]
    ring_nf
  simp only [dhtlib_gpa788.read11, dhtlib_gpa788._read]
  rw [if_neg hne, if_neg hne, if_pos hbad2, if_pos hbad]
  refine ⟨rfl, rfl, rfl, ?_, ?_, rfl, rfl, rfl, ?_⟩
  · exact nonneg_ne_neg999 (Nat.cast_nonneg _)
  · exact nonneg_ne_neg999 (Nat.cast_nonneg _)
  · exact nonneg_ne_neg999 (by positivity)

/-- Witness for C1 at a concrete frame 45, 0, 23, 0, 67 with corrupted
checksum (the valid checksum byte would be 68). -/
theorem spec_C1_witness :
    (dhtlib_gpa788._readSensor (envAll dFrame45bad) DHTLIB_DHT11_WAKEUP stW).code
        = DHTLIB_ErrorCode.DHTLIB_OK ∧
    (dhtlib_gpa788._readSensor (envAll dFrame45bad) DHTLIB_DHT11_WAKEUP stW).st.bits 4
        ≠ ((dhtlib_gpa788._readSensor (envAll dFrame45bad) DHTLIB_DHT11_WAKEUP
              stW).st.bits 0
            + (dhtlib_gpa788._readSensor (envAll dFrame45bad) DHTLIB_DHT11_WAKEUP
              stW).st.bits 1
            + (dhtlib_gpa788._readSensor (envAll dFrame45bad) DHTLIB_DHT11_WAKEUP
              stW).st.bits 2
            + (dhtlib_gpa788._readSensor (envAll dFrame45bad) DHTLIB_DHT11_WAKEUP
              stW).st.bits 3) % 256 ∧
    (dhtlib_gpa788.read11 (envAll dFrame45bad) stW).code
        = DHTLIB_ErrorCode.DHTLIB_ERROR_CHECKSUM ∧
    (dhtlib_gpa788._read (envAll dFrame45bad) stW).code
        = DHTLIB_ErrorCode.DHTLIB_ERROR_CHECKSUM ∧
    (dhtlib_gpa788.read11 (envAll dFrame45bad) stW).st.humidity = 45 :=
  ⟨by decide, by decide,
   (spec_C1_checksum_keeps_decoded (envAll dFrame45bad) stW (by decide) (by decide)).1,
   (spec_C1_checksum_keeps_decoded (envAll dFrame45bad) stW (by decide)
     (by decide)).2.2.2.2.2.1,
   by decide⟩

/-- Claim C5: on a successful acquisition, _read decodes humidity as the
16-bit big-endian value of bytes 0 and 1 scaled by one tenth, and
temperature as the 16-bit value of byte 2 with its top bit masked off and
byte 3, scaled by one tenth and negated when the top bit of byte 2 is set;
in particular byte 2 = 0x80, byte 3 = 0x05 yields minus one half. -/
theorem spec_C5_scaled_decode (env : SensorEnv) (st : dhtlib_gpa788)
    (hOK : (dhtlib_gpa788._readSensor env DHTLIB_DHT11_WAKEUP st).code
      = DHTLIB_ErrorCode.DHTLIB_OK) :
    (dhtlib_gpa788._read env st).st.humidity
      = ((256 * (dhtlib_gpa788._readSensor env DHTLIB_DHT11_WAKEUP st).st.bits 0
          + (dhtlib_gpa788._readSensor env DHTLIB_DHT11_WAKEUP st).st.bits 1 : Nat)
          : Rat) * (1 / 10) ∧
    (dhtlib_gpa788._read env st).st.temperature
      = (if Nat.land ((dhtlib_gpa788._readSensor env DHTLIB_DHT11_WAKEUP st).st.bits 2)
            0x80 ≠ 0
         then -(((256 * Nat.land ((dhtlib_gpa788._readSensor env DHTLIB_DHT11_WAKEUP
                  st).st.bits 2) 0x7F
                + (dhtlib_gpa788._readSensor env DHTLIB_DHT11_WAKEUP st).st.bits 3 : Nat)
                : Rat) * (1 / 10))
         else ((256 * Nat.land ((dhtlib_gpa788._readSensor env DHTLIB_DHT11_WAKEUP
                  st).st.bits 2) 0x7F
              + (dhtlib_gpa788._readSensor env DHTLIB_DHT11_WAKEUP st).st.bits 3 : Nat)
              : Rat) * (1 / 10)) ∧
    ((dhtlib_gpa788._readSensor env DHTLIB_DHT11_WAKEUP st).st.bits 2 = 0x80 →
      (dhtlib_gpa788._readSensor env DHTLIB_DHT11_WAKEUP st).st.bits 3 = 0x05 →
      (dhtlib_gpa788._read env st).st.temperature = -(1 / 2)) := by
  have hne : ¬ ((dhtlib_gpa788._readSensor env DHTLIB_DHT11_WAKEUP st).code
      ≠ DHTLIB_ErrorCode.DHTLIB_OK) := not_not_intro hOK
  have hhum : (dhtlib_gpa788._read env st).st.humidity
      = ((256 * (dhtlib_gpa788._readSensor env DHTLIB_DHT11_WAKEUP st).st.bits 0
          + (dhtlib_gpa788._readSensor env DHTLIB_DHT11_WAKEUP st).st.bits 1 : Nat)
          : Rat) * (1 / 10) := by
    simp only [dhtlib_gpa788._read]
    rw [if_neg hne]
    split <;> simp [word]
  have htemp : (dhtlib_gpa788._read env st).st.temperature
      = (if Nat.land ((dhtlib_gpa788._readSensor env DHTLIB_DHT11_WAKEUP st).st.bits 2)
            0x80 ≠ 0
         then -(((256 * Nat.land ((dhtlib_gpa788._readSensor env DHTLIB_DHT11_WAKEUP
                  st).st.bits 2) 0x7F
                + (dhtlib_gpa788._readSensor env DHTLIB_DHT11_WAKEUP st).st.bits 3 : Nat)
                : Rat) * (1 / 10))
         else ((256 * Nat.land ((dhtlib_gpa788._readSensor env DHTLIB_DHT11_WAKEUP
                  st).st.bits 2) 0x7F
              + (dhtlib_gpa788._readSensor env DHTLIB_DHT11_WAKEUP st).st.bits 3 : Nat)
              : Rat) * (1 / 10)) := by
    simp only [dhtlib_gpa788._read]
    rw [if_neg hne]
    split <;> simp [word]
  refine ⟨hhum, htemp, ?_⟩
  intro h2 h3
  rw [htemp, h2, h3]
  norm_num [show Nat.land 0x80 0x80 = 0x80 from rfl, show Nat.land 0x80 0x7F = 0 from rfl]

/-- Witness for C5 at the concrete frame 0, 0, 0x80, 0x05, 0. -/
theorem spec_C5_witness :
    (dhtlib_gpa788._readSensor (envAll dFrameNeg) DHTLIB_DHT11_WAKEUP stW).code
        = DHTLIB_ErrorCode.DHTLIB_OK ∧
    (dhtlib_gpa788._readSensor (envAll dFrameNeg) DHTLIB_DHT11_WAKEUP stW).st.bits 2
        = 0x80 ∧
    (dhtlib_gpa788._readSensor (envAll dFrameNeg) DHTLIB_DHT11_WAKEUP stW).st.bits 3
        = 0x05 ∧
    (dhtlib_gpa788._read (envAll dFrameNeg) stW).st.temperature = -(1 / 2) :=
  ⟨by decide, by decide, by decide,
   (spec_C5_scaled_decode (envAll dFrameNeg) stW (by decide)).2.2 (by decide) (by decide)⟩

/-- Claim C6: on a successful acquisition, read11 stores byte 0 as the
humidity and byte 2 as the temperature (cast to the reading type) and
returns DHTLIB_OK exactly when byte 4 equals the mod-256 sum of bytes 0 to
3; for the frame 45, 0, 23, 0, 68 it returns DHTLIB_OK with humidity 45
and temperature 23. -/
theorem spec_C6_packed_decode (env : SensorEnv) (st : dhtlib_gpa788)
    (hOK : (dhtlib_gpa788._readSensor env DHTLIB_DHT11_WAKEUP st).code
      = DHTLIB_ErrorCode.DHTLIB_OK) :
    (dhtlib_gpa788.read11 env st).st.humidity
      = ((dhtlib_gpa788._readSensor env DHTLIB_DHT11_WAKEUP st).st.bits 0 : Rat) ∧
    (dhtlib_gpa788.read11 env st).st.temperature
      = ((dhtlib_gpa788._readSensor env DHTLIB_DHT11_WAKEUP st).st.bits 2 : Rat) ∧
    ((dhtlib_gpa788.read11 env st).code = DHTLIB_ErrorCode.DHTLIB_OK ↔
      (dhtlib_gpa788._readSensor env DHTLIB_DHT11_WAKEUP st).st.bits 4
        = ((dhtlib_gpa788._readSensor env DHTLIB_DHT11_WAKEUP st).st.bits 0
            + (dhtlib_gpa788._readSensor env DHTLIB_DHT11_WAKEUP st).st.bits 1
            + (dhtlib_gpa788._readSensor env DHTLIB_DHT11_WAKEUP st).st.bits 2
            + (dhtlib_gpa788._readSensor env DHTLIB_DHT11_WAKEUP st).st.bits 3) % 256) ∧
    ((dhtlib_gpa788._readSensor env DHTLIB_DHT11_WAKEUP st).st.bits 0 = 45 →
      (dhtlib_gpa788._readSensor env DHTLIB_DHT11_WAKEUP st).st.bits 1 = 0 →
      (dhtlib_gpa788._readSensor env DHTLIB_DHT11_WAKEUP st).st.bits 2 = 23 →
      (dhtlib_gpa788._readSensor env DHTLIB_DHT11_WAKEUP st).st.bits 3 = 0 →
      (dhtlib_gpa788._readSensor env DHTLIB_DHT11_WAKEUP st).st.bits 4 = 68 →
      (dhtlib_gpa788.read11 env st).code = DHTLIB_ErrorCode.DHTLIB_OK ∧
      (dhtlib_gpa788.read11 env st).st.humidity = 45 ∧
      (dhtlib_gpa788.read11 env st).st.temperature = 23) := by
  have hne : ¬ ((dhtlib_gpa788._readSensor env DHTLIB_DHT11_WAKEUP st).code
      ≠ DHTLIB_ErrorCode.DHTLIB_OK) := not_not_intro hOK
  have hsum : ((dhtlib_gpa788._readSensor env DHTLIB_DHT11_WAKEUP st).st.bits 0
        + (dhtlib_gpa788._readSensor env DHTLIB_DHT11_WAKEUP st).st.bits 2
        + (dhtlib_gpa788._readSensor env DHTLIB_DHT11_WAKEUP st).st.bits 1
        + (dhtlib_gpa788._readSensor env DHTLIB_DHT11_WAKEUP st).st.bits 3) % 256
      = ((dhtlib_gpa788._readSensor env DHTLIB_DHT11_WAKEUP st).st.bits 0
        + (dhtlib_gpa788._readSensor env DHTLIB_DHT11_WAKEUP st).st.bits 1
        + (dhtlib_gpa788._readSensor env DHTLIB_DHT11_WAKEUP st).st.bits 2
        + (dhtlib_gpa788._readSensor env DHTLIB_DHT11_WAKEUP st).st.bits 3) % 256 := by
    ring_nf
  have hhum : (dhtlib_gpa788.read11 env st).st.humidity
      = ((dhtlib_gpa788._readSensor env DHTLIB_DHT11_WAKEUP st).st.bits 0 : Rat) := by
    simp only [dhtlib_gpa788.read11]
    rw [if_neg hne]
    split <;> rfl
  have htemp : (dhtlib_gpa788.read11 env st).st.temperature
      = ((dhtlib_gpa788._readSensor env DHTLIB_DHT11_WAKEUP st).st.bits 2 : Rat) := by
    simp only [dhtlib_gpa788.read11]
    rw [if_neg hne]
    split <;> rfl
  have hiff : (dhtlib_gpa788.read11 env st).code = DHTLIB_ErrorCode.DHTLIB_OK ↔
      (dhtlib_gpa788._readSensor env DHTLIB_DHT11_WAKEUP st).st.bits 4
        = ((dhtlib_gpa788._readSensor env DHTLIB_DHT11_WAKEUP st).st.bits 0
            + (dhtlib_gpa788._readSensor env DHTLIB_DHT11_WAKEUP st).st.bits 1
            + (dhtlib_gpa788._readSensor env DHTLIB_DHT11_WAKEUP st).st.bits 2
            + (dhtlib_gpa788._readSensor env DHTLIB_DHT11_WAKEUP st).st.bits 3) % 256 := by
    simp only [dhtlib_gpa788.read11]
    rw [if_neg hne]
    split
    · rename_i hin
      constructor
      · intro hcode
        exact absurd hcode (by simp)
      · intro heq
        exact absurd (heq.trans hsum.symm) hin
    · rename_i hin
      constructor
      · intro _
        exact (not_not.mp hin).trans hsum
      · intro _
        rfl
  refine ⟨hhum, htemp, hiff, ?_⟩
  intro e0 e1 e2 e3 e4
  refine ⟨hiff.mpr ?_, ?_, ?_⟩
  · rw [e0, e1, e2, e3, e4]
  · rw [hhum, e0]
    norm_num
  · rw [htemp, e2]
    norm_num

/-- Witness for C6 at the concrete frame 45, 0, 23, 0, 68. -/
theorem spec_C6_witness :
    (dhtlib_gpa788._readSensor (envAll dFrame45) DHTLIB_DHT11_WAKEUP stW).code
        = DHTLIB_ErrorCode.DHTLIB_OK ∧
    (dhtlib_gpa788.read11 (envAll dFrame45) stW).code = DHTLIB_ErrorCode.DHTLIB_OK ∧
    (dhtlib_gpa788.read11 (envAll dFrame45) stW).st.humidity = 45 ∧
    (dhtlib_gpa788.read11 (envAll dFrame45) stW).st.temperature = 23 := by
  have h := spec_C6_packed_decode (envAll dFrame45) stW (by decide)
  obtain ⟨hc, hh, ht⟩ := h.2.2.2 (by decide) (by decide) (by decide) (by decide) (by decide)
  exact ⟨by decide, hc, hh, ht⟩

lemma byteVal_testBit_7 (d0 d1 d2 d3 d4 d5 d6 d7 : Nat) :
    Nat.testBit (byteVal d0 d1 d2 d3 d4 d5 d6 d7) 7 = decide (40 < d0) :=
  (byteVal_testBit d0 d1 d2 d3 d4 d5 d6 d7).1

lemma byteVal_testBit_6 (d0 d1 d2 d3 d4 d5 d6 d7 : Nat) :
    Nat.testBit (byteVal d0 d1 d2 d3 d4 d5 d6 d7) 6 = decide (40 < d1) :=
  (byteVal_testBit d0 d1 d2 d3 d4 d5 d6 d7).2.1

lemma byteVal_testBit_5 (d0 d1 d2 d3 d4 d5 d6 d7 : Nat) :
    Nat.testBit (byteVal d0 d1 d2 d3 d4 d5 d6 d7) 5 = decide (40 < d2) :=
  (byteVal_testBit d0 d1 d2 d3 d4 d5 d6 d7).2.2.1

lemma byteVal_testBit_4 (d0 d1 d2 d3 d4 d5 d6 d7 : Nat) :
    Nat.testBit (byteVal d0 d1 d2 d3 d4 d5 d6 d7) 4 = decide (40 < d3) :=
  (byteVal_testBit d0 d1 d2 d3 d4 d5 d6 d7).2.2.2.1

lemma byteVal_testBit_3 (d0 d1 d2 d3 d4 d5 d6 d7 : Nat) :
    Nat.testBit (byteVal d0 d1 d2 d3 d4 d5 d6 d7) 3 = decide (40 < d4) :=
  (byteVal_testBit d0 d1 d2 d3 d4 d5 d6 d7).2.2.2.2.1

lemma byteVal_testBit_2 (d0 d1 d2 d3 d4 d5 d6 d7 : Nat) :
    Nat.testBit (byteVal d0 d1 d2 d3 d4 d5 d6 d7) 2 = decide (40 < d5) :=
  (byteVal_testBit d0 d1 d2 d3 d4 d5 d6 d7).2.2.2.2.2.1

lemma byteVal_testBit_1 (d0 d1 d2 d3 d4 d5 d6 d7 : Nat) :
    Nat.testBit (byteVal d0 d1 d2 d3 d4 d5 d6 d7) 1 = decide (40 < d6) :=
  (byteVal_testBit d0 d1 d2 d3 d4 d5 d6 d7).2.2.2.2.2.2.1

lemma byteVal_testBit_0 (d0 d1 d2 d3 d4 d5 d6 d7 : Nat) :
    Nat.testBit (byteVal d0 d1 d2 d3 d4 d5 d6 d7) 0 = decide (40 < d7) :=
  (byteVal_testBit d0 d1 d2 d3 d4 d5 d6 d7).2.2.2.2.2.2.2

lemma byteVal_mod_two (d0 d1 d2 d3 d4 d5 d6 d7 : Nat) :
    byteVal d0 d1 d2 d3 d4 d5 d6 d7 % 2 = cond (decide (40 < d7)) 1 0 := by
  unfold byteVal
  generalize decide (40 < d0) = c0
  generalize decide (40 < d1) = c1
  generalize decide (40 < d2) = c2
  generalize decide (40 < d3) = c3
  generalize decide (40 < d4) = c4
  generalize decide (40 < d5) = c5
  generalize decide (40 < d6) = c6
  generalize decide (40 < d7) = c7
  revert c0 c1 c2 c3 c4 c5 c6 c7
  decide

lemma cond_decide_one_iff (p : Prop) [Decidable p] :
    (cond (decide p) 1 0 = 1) ↔ p := by
  by_cases h : p <;> simp [h]

/-- Claim C7: whenever the 40-bit acquisition completes without timeout
(environment envAll d delivering measured pulse d k for stream position
k), the frame holds the 40 threshold decisions packed MSB-first: bit
(7 - k mod 8) of byte (k div 8) is set exactly when the k-th measured
pulse exceeds 40 microseconds. -/
theorem spec_C7_bit_packing (d : Nat → Nat) (w : Nat) (st : dhtlib_gpa788)
    (k : Nat) (hk : k < 40) :
    (dhtlib_gpa788._readSensor (envAll d) w st).code = DHTLIB_ErrorCode.DHTLIB_OK ∧
    (Nat.testBit ((dhtlib_gpa788._readSensor (envAll d) w st).st.bits (k / 8))
        (7 - k % 8) = true ↔ 40 < d k) := by
  have hp : ∀ t, (envAll d).pulse t = some (d t) := fun t => rfl
  have hfst : (bitLoop { ackLow := true, ackHigh := true, pulse := fun k => some (d k) }
      40 0 128 0 (fun _ => 0)).1 = true :=
    bitLoop_fst_true (envAll d) 40 0 128 0 (fun _ => 0) (fun t ht => rfl)
  have hcode : (dhtlib_gpa788._readSensor (envAll d) w st).code
      = DHTLIB_ErrorCode.DHTLIB_OK := by
    simp [dhtlib_gpa788._readSensor, envAll, hfst]
  have hbits : (dhtlib_gpa788._readSensor (envAll d) w st).st.bits
      = (bitLoop (envAll d) 40 0 128 0 (fun _ => 0)).2 := by
    simp [dhtlib_gpa788._readSensor, envAll, hfst]
  refine ⟨hcode, ?_⟩
  rw [hbits, bitLoop_full (envAll d) d hp]
  interval_cases k <;>
    simp [byteFromPulses, byteVal_testBit_7, byteVal_testBit_6, byteVal_testBit_5,
      byteVal_testBit_4, byteVal_testBit_3, byteVal_testBit_2, byteVal_testBit_1,
      byteVal_testBit_0, byteVal_mod_two, cond_decide_one_iff]

/-- Witness for C7 at the alternating pulse sequence and stream position 3
(an odd position, below threshold) and position 16 (even, above). -/
theorem spec_C7_witness :
    (3 < 40) ∧
    (dhtlib_gpa788._readSensor (envAll dAlt) DHTLIB_DHT_WAKEUP stW).code
        = DHTLIB_ErrorCode.DHTLIB_OK ∧
    (Nat.testBit ((dhtlib_gpa788._readSensor (envAll dAlt) DHTLIB_DHT_WAKEUP
        stW).st.bits (3 / 8)) (7 - 3 % 8) = true ↔ 40 < dAlt 3) ∧
    (Nat.testBit ((dhtlib_gpa788._readSensor (envAll dAlt) DHTLIB_DHT_WAKEUP
        stW).st.bits (16 / 8)) (7 - 16 % 8) = true ↔ 40 < dAlt 16) :=
  ⟨by norm_num,
   (spec_C7_bit_packing dAlt DHTLIB_DHT_WAKEUP stW 3 (by norm_num)).1,
   (spec_C7_bit_packing dAlt DHTLIB_DHT_WAKEUP stW 3 (by norm_num)).2,
   (spec_C7_bit_packing dAlt DHTLIB_DHT_WAKEUP stW 16 (by norm_num)).2⟩

/-- Claim C10: the conditional writes of the 40-bit loop, whose mask and
byte index evolve from mask 128 and idx 0 exactly as in the source, target
byte index at most 4; each of the indices 0 to 4 is targeted by exactly 8
of the exactly 40 iterations, and consequently the buffer is never written
outside its five bytes: every byte of the frame beyond index 4 is still 0
after any _readSensor call. -/
theorem spec_C10_write_indices :
    (∀ p ∈ bitLoopTrace 40 128 0, p.2 ≤ 4) ∧
    (bitLoopTrace 40 128 0).length = 40 ∧
    (∀ v, v ≤ 4 → ((bitLoopTrace 40 128 0).map Prod.snd).count v = 8) ∧
    (∀ (env : SensorEnv) (w : Nat) (st : dhtlib_gpa788) (j : Nat), 5 ≤ j →
      (dhtlib_gpa788._readSensor env w st).st.bits j = 0) := by
  refine ⟨by decide, by decide, by decide, ?_⟩
  intro env w st j hj
  unfold dhtlib_gpa788._readSensor
  rcases hL : env.ackLow with _ | _
  · simp [hL]
  · rcases hH : env.ackHigh with _ | _
    · simp [hL, hH]
    · simp only [hL, hH]
      norm_num
      split
      · show (bitLoop env 40 0 128 0 fun _ => 0).2 j = 0
        rw [show (128 : Nat) = 2 ^ 7 by norm_num]
        exact bitLoop_bits_high env 40 0 7 0 (fun _ => 0) j (by norm_num) (by omega)
      · show (bitLoop env 40 0 128 0 fun _ => 0).2 j = 0
        rw [show (128 : Nat) = 2 ^ 7 by norm_num]
        exact bitLoop_bits_high env 40 0 7 0 (fun _ => 0) j (by norm_num) (by omega)

/-- Witness for C10: concrete instances of each bounded part. -/
theorem spec_C10_witness :
    (128, 0).2 ≤ 4 ∧
    ((bitLoopTrace 40 128 0).map Prod.snd).count 4 = 8 ∧
    (dhtlib_gpa788._readSensor envStuck DHTLIB_DHT11_WAKEUP stW).st.bits 5 = 0 ∧
    (dhtlib_gpa788._readSensor (envAll dAlt) DHTLIB_DHT11_WAKEUP stW).st.bits 7 = 0 :=
  ⟨spec_C10_write_indices.1 (128, 0) (by decide),
   spec_C10_write_indices.2.2.1 4 (by norm_num),
   spec_C10_write_indices.2.2.2 envStuck DHTLIB_DHT11_WAKEUP stW 5 (by norm_num),
   spec_C10_write_indices.2.2.2 (envAll dAlt) DHTLIB_DHT11_WAKEUP stW 7 (by norm_num)⟩
